import Mathlib

/-!
# NotionCSVtoDatabase: `notion_csv_importer.js`

A shallow embedding of the import pipeline of `src/notion_csv_importer.js`:
`createDynamicDatabase`, `addRowToDatabase` and the `readable` / `end`
listeners that `importFromCsv` registers on the CSV parser.

Modelling conventions.

* A JavaScript object used as a record (`row`, `properties`) is the table of
  its own string-keyed properties, `Obj`, in order of creation; its prototype
  is `Object.prototype`, as for every object made by `{}`.
  - A read `row[k]` (`Row.at`) gives the own property when there is one and
    otherwise goes up the prototype chain: for the twelve member names of
    `Object.prototype` it gives the inherited member (a function, or the
    prototype object for `__proto__`), which is truthy; for any other name
    it gives `undefined`.
  - An assignment `o[k] = v` of an object `v` (`Obj.set`) defines or updates
    the own property `k`, except for `k = "__proto__"` on an object without
    such an own property: that runs the inherited setter, which replaces the
    prototype of `o` and adds no own property.
  - `Object.keys(o)` (`Obj.keys`) lists the array-index names first, in
    ascending numeric order, then the other names in order of creation.
* The own properties of a parsed row hold strings (`csv-parse` without
  `cast`) or `undefined`.
* The Notion client is an arbitrary state machine `Notion σ`: each call may
  succeed or reject, depending on the request and on everything that
  happened before.  `path.basename` and `NOTION_PAGE_ID` are parameters.
* Effects (remote calls, console lines, `app.quit()`) are recorded in order
  in `World.trace`.  An `async` function is a function from the world to a
  result (`Except JsError`) and the next world.
-/

namespace NotionCsv

/-! ## Values and objects -/

/-- The value of an own property of a parsed CSV row: a string, or
    `undefined`. -/
inductive Cell where
  | undefined
  | str (s : String)
deriving DecidableEq, Repr

/-- The result of a read `row[key]`: `undefined`, a string, or the member of
    `Object.prototype` of a given name, reached through the prototype chain
    (a built-in function; for `__proto__` the prototype object). -/
inductive Value where
  | undefined
  | str (s : String)
  | inherited (name : String)
deriving DecidableEq, Repr

/-- JavaScript truthiness: `undefined` and the empty string are falsy,
    functions and objects are truthy. -/
def Value.truthy : Value → Bool
  | .undefined => false
  | .str s => decide (s ≠ "")
  | .inherited _ => true

/-- The operator `a || b`. -/
def Value.or (a b : Value) : Value :=
  if a.truthy then a else b

/-- String conversion of a value, as in a template literal or a property
    key.  A built-in function prints as its native source text, under the
    name of the function (`Object` for `constructor`); the prototype object
    prints as `[object Object]`. -/
def Value.toStr : Value → String
  | .undefined => "undefined"
  | .str s => s
  | .inherited name =>
    if name = "__proto__" then "[object Object]"
    else if name = "constructor" then "function Object() \x7b [native code] \x7d"
    else "function " ++ name ++ "() \x7b [native code] \x7d"

/-- The names of the members of `Object.prototype`. -/
def objectPrototypeMembers : List String :=
  ["constructor", "__defineGetter__", "__defineSetter__", "hasOwnProperty",
    "__lookupGetter__", "__lookupSetter__", "isPrototypeOf", "propertyIsEnumerable",
    "toString", "valueOf", "__proto__", "toLocaleString"]

/-- The own properties of a JavaScript object, with values of type `α`, in
    order of creation. -/
abbrev Obj (α : Type) := List (String × α)

/-- Define or update the own data property `k` of `o`. -/
def Obj.put {α : Type} : Obj α → String → α → Obj α
  | [], k, v => [(k, v)]
  | (k', v') :: rest, k, v =>
    if k' = k then (k', v) :: rest else (k', v') :: Obj.put rest k v

/-- The own property `k` of `o`, `none` when `o` has no such own property. -/
def Obj.get {α : Type} : Obj α → String → Option α
  | [], _ => none
  | (k', v') :: rest, k => if k' = k then some v' else Obj.get rest k

/-- The assignment `o[k] = v` of an object `v`.  The name `__proto__`, when
    `o` holds no own property of that name, runs the setter inherited from
    `Object.prototype`: the prototype of `o` is replaced and `o` gains no own
    property.  Every other assignment defines or updates the own property. -/
def Obj.set {α : Type} (o : Obj α) (k : String) (v : α) : Obj α :=
  if k = "__proto__" then
    match Obj.get o k with
    | none => o
    | some _ => Obj.put o k v
  else
    Obj.put o k v

/-- The names of the own properties, in order of creation. -/
def Obj.names {α : Type} (o : Obj α) : List String :=
  o.map Prod.fst

/-- The value of a decimal digit. -/
def digit (c : Char) : Option Nat :=
  if 48 ≤ c.toNat ∧ c.toNat ≤ 57 then some (c.toNat - 48) else none

/-- The number written by a list of decimal digits, after the digits
    already read. -/
def digitsValue : List Char → Nat → Option Nat
  | [], acc => some acc
  | c :: cs, acc =>
    match digit c with
    | none => none
    | some d => digitsValue cs (10 * acc + d)

/-- The array index that a property name denotes, if any: the canonical
    decimal form of an integer from 0 to 2^32 - 2. -/
def arrayIndex (k : String) : Option Nat :=
  match k.data with
  | [] => none
  | c :: cs =>
    if c = '0' ∧ cs ≠ [] then none
    else
      match digitsValue (c :: cs) 0 with
      | none => none
      | some n => if n < 4294967295 then some n else none

/-- The call `Object.keys(o)`: array-index names in ascending numeric order,
    then the other names in order of creation. -/
def Obj.keys {α : Type} (o : Obj α) : List String :=
  ((o.filterMap (fun p => (arrayIndex p.1).map (fun n => (n, p.1)))).insertionSort
      (fun a b => a.1 ≤ b.1)).map Prod.snd ++
    (Obj.names o).filter (fun k => (arrayIndex k).isNone)

/-- The value of an own property, as the result of a read. -/
def Cell.toValue : Cell → Value
  | .undefined => Value.undefined
  | .str s => Value.str s

/-- A parsed CSV row. -/
abbrev Row := Obj Cell

/-- The read `row[key]` on a parsed row: the own property, else the member
    of `Object.prototype` of that name, else `undefined`. -/
def Row.at (row : Row) (key : String) : Value :=
  match Obj.get row key with
  | some c => c.toValue
  | none => if key ∈ objectPrototypeMembers then Value.inherited key else Value.undefined

/-- The element `headers[0]`, `undefined` when the array is empty. -/
def first (headers : List String) : Value :=
  match headers with
  | [] => Value.undefined
  | h :: _ => Value.str h

/-- Loop of `xs.forEach((x, index) => ...)` from a given index, the body
    acting on the state `β`. -/
def forEachFrom {α β : Type} : List α → Nat → (α → Nat → β → β) → β → β
  | [], _, _, acc => acc
  | x :: xs, index, callback, acc =>
    forEachFrom xs (index + 1) callback (callback x index acc)

/-- The call `xs.forEach((x, index) => ...)`. -/
def forEach {α β : Type} (xs : List α) (callback : α → Nat → β → β) (acc : β) : β :=
  forEachFrom xs 0 callback acc

/-! ## Requests, events and the world -/

/-- An error object; only its `message` is read. -/
structure JsError where
  message : String
deriving DecidableEq, Repr

/-- A schema property `{ type: t, [m]: {} }`. -/
structure SchemaProperty where
  type : String
  member : String
deriving DecidableEq, Repr

/-- A text item `{ type: t, text: { content: c } }`. -/
structure TextItem where
  type : String
  content : Value
deriving DecidableEq, Repr

/-- A page property `{ [m]: [ items ] }`. -/
structure PageProperty where
  member : String
  items : List TextItem
deriving DecidableEq, Repr

/-- The argument of `notion.databases.create`. -/
structure DatabaseCreateRequest where
  parentType : String
  parentPageId : String
  title : List TextItem
  properties : Obj SchemaProperty
deriving DecidableEq, Repr

/-- The argument of `notion.pages.create`. -/
structure PageCreateRequest where
  parentDatabaseId : String
  properties : Obj PageProperty
deriving DecidableEq, Repr

/-- A response of the Notion client; only its `id` is read. -/
structure Response where
  id : String
deriving DecidableEq, Repr

/-- The observable effects of the program, in order of occurrence. -/
inductive Event where
  | databasesCreate (req : DatabaseCreateRequest)
  | pagesCreate (req : PageCreateRequest)
  | consoleLog (args : List String)
  | consoleError (args : List String)
  | appQuit
deriving DecidableEq, Repr

/-- The Notion client as a state machine on a remote state `σ`. -/
structure Notion (σ : Type) where
  databasesCreate : DatabaseCreateRequest → σ → Except JsError Response × σ
  pagesCreate : PageCreateRequest → σ → Except JsError Response × σ

/-- The environment: `NOTION_PAGE_ID` and `path.basename`. -/
structure Config where
  NOTION_PAGE_ID : String
  basename : String → String

/-- The remote state and the effects so far. -/
structure World (σ : Type) where
  remote : σ
  trace : List Event

/-- Append one effect to the trace. -/
def World.emit {σ : Type} (w : World σ) (e : Event) : World σ :=
  { w with trace := w.trace ++ [e] }

/-- An `async` computation: a result or a thrown error, and the next world. -/
abbrev Js (σ α : Type) := World σ → Except JsError α × World σ

/-- The statement `try { body } catch (error) { handler }`. -/
def tryCatch {σ α : Type} (body : Js σ α) (handler : JsError → Js σ α) : Js σ α :=
  fun w =>
    match body w with
    | (Except.ok v, w1) => (Except.ok v, w1)
    | (Except.error error, w1) => handler error w1

/-- The call `await notion.databases.create(req)`. -/
def awaitDatabasesCreate {σ : Type} (N : Notion σ) (req : DatabaseCreateRequest) :
    Js σ Response :=
  fun w =>
    let r := N.databasesCreate req w.remote
    (r.1, { remote := r.2, trace := w.trace ++ [Event.databasesCreate req] })

/-- The call `await notion.pages.create(req)`. -/
def awaitPagesCreate {σ : Type} (N : Notion σ) (req : PageCreateRequest) :
    Js σ Response :=
  fun w =>
    let r := N.pagesCreate req w.remote
    (r.1, { remote := r.2, trace := w.trace ++ [Event.pagesCreate req] })

/-! ## The program -/

/-- The `properties` object built at lines 33-39. -/
def schemaProperties (headers : List String) : Obj SchemaProperty :=
  forEach headers
    (fun header index properties =>
      Obj.set properties header
        { type := if index = 0 then "title" else "rich_text",
          member := if index = 0 then "title" else "rich_text" })
    []

/-- The request object of lines 41-52. -/
def databaseRequest (C : Config) (headers : List String) (csvFilePath : String) :
    DatabaseCreateRequest :=
  { parentType := "page_id",
    parentPageId := C.NOTION_PAGE_ID,
    title := [{ type := "text",
                content := Value.str (C.basename csvFilePath ++ " Table - Created by NotionFlow") }],
    properties := schemaProperties headers }

/-- Function `createDynamicDatabase(headers, csvFilePath)`; `headers = none`
    is a missing (`undefined` / `null`) argument.  The second parameter is
    the path of the CSV file, whose base name goes into the title (the JSDoc
    of the function calls it `parentPageId`); the parent page is the
    constant `NOTION_PAGE_ID`. -/
def createDynamicDatabase {σ : Type} (C : Config) (N : Notion σ)
    (headers : Option (List String)) (csvFilePath : String) : Js σ String :=
  tryCatch
    (fun w =>
      match headers with
      | none => (Except.error ⟨"CSV file must have at least one column header"⟩, w)
      | some hs =>
        if hs.length = 0 then
          (Except.error ⟨"CSV file must have at least one column header"⟩, w)
        else
          match awaitDatabasesCreate N (databaseRequest C hs csvFilePath) w with
          | (Except.error e, w1) => (Except.error e, w1)
          | (Except.ok response, w1) =>
            let databaseId := response.id
            (Except.ok databaseId,
              w1.emit (Event.consoleLog ["Created database :: ID = " ++ databaseId])))
    (fun error w =>
      (Except.error error,
        w.emit (Event.consoleError ["Error creating database :: ", error.message])))

/-- The `properties` object built at lines 70-81. -/
def pageProperties (row : Row) (headers : List String) : Obj PageProperty :=
  forEach headers
    (fun header index properties =>
      let value := (Row.at row header).or (Value.str "")
      Obj.set properties header
        { member := if index = 0 then "title" else "rich_text",
          items := [{ type := "text", content := value }] })
    []

/-- The request object of lines 83-86. -/
def pageRequest (databaseId : String) (row : Row) (headers : List String) :
    PageCreateRequest :=
  { parentDatabaseId := databaseId,
    properties := pageProperties row headers }

/-- The expression `row[headers[0]] || 'Untitled'` as it is printed. -/
def rowLabel (row : Row) (headers : List String) : String :=
  ((Row.at row (first headers).toStr).or (Value.str "Untitled")).toStr

/-- Function `addRowToDatabase(databaseId, row, headers)`; the result `none`
    is the `undefined` returned after the `catch` block. -/
def addRowToDatabase {σ : Type} (N : Notion σ) (databaseId : String) (row : Row)
    (headers : List String) : Js σ (Option Response) :=
  tryCatch
    (fun w =>
      match awaitPagesCreate N (pageRequest databaseId row headers) w with
      | (Except.error e, w1) => (Except.error e, w1)
      | (Except.ok response, w1) =>
        (Except.ok (some response),
          w1.emit (Event.consoleLog ["Added row :: " ++ rowLabel row headers])))
    (fun error w =>
      (Except.ok none,
        w.emit (Event.consoleError
          ["Error adding row \"" ++ rowLabel row headers ++ "\" :: ", error.message])))

/-- The loop of lines 156-159, started with a given `rowCount`; the result
    is the value of `rowCount` after the loop. -/
def importFromCsv.uploadRows {σ : Type} (N : Notion σ) (databaseId : String) (headers : List String) :
    List Row → Nat → Js σ Nat
  | [], rowCount => fun w => (Except.ok rowCount, w)
  | row :: rest, rowCount => fun w =>
    match addRowToDatabase N databaseId row headers w with
    | (Except.error e, w1) => (Except.error e, w1)
    | (Except.ok _, w1) => importFromCsv.uploadRows N databaseId headers rest (rowCount + 1) w1

/-- The `readable` listener of lines 132-143 on one record read from the
    parser, acting on the variables `headers` and `rows`. -/
def importFromCsv.onReadable (row : Row) (state : List String × List Row) :
    Except JsError (List String × List Row) :=
  let headers := state.1
  let rows := state.2
  if headers.length = 0 then
    let headers := Obj.keys row
    if headers.length = 0 then
      Except.error ⟨"CSV file must have at least one column header"⟩
    else
      Except.ok (headers, rows ++ [row])
  else
    Except.ok (headers, rows ++ [row])

/-- The `readable` listener run on every record that the parser delivers,
    in order, from a given state of `headers` and `rows`. -/
def importFromCsv.readRecords :
    List Row → List String × List Row → Except JsError (List String × List Row)
  | [], state => Except.ok state
  | row :: more, state =>
    match importFromCsv.onReadable row state with
    | Except.error e => Except.error e
    | Except.ok next => importFromCsv.readRecords more next

/-- The `end` listener of lines 145-163, run with the variables `headers`
    and `rows` as the `readable` listener left them and `rowCount = 0`; the
    result is the value of `rowCount` when the listener settles. -/
def importFromCsv.onEnd {σ : Type} (C : Config) (N : Notion σ) (headers : List String)
    (rows : List Row) (csvFilePath : String) : Js σ Nat :=
  fun w =>
    if rows.length = 0 then
      (Except.ok 0,
        (w.emit (Event.consoleError
          ["Error :: CSV file is empty or contains no valid data"])).emit Event.appQuit)
    else
      match createDynamicDatabase C N (some headers) csvFilePath w with
      | (Except.error e, w1) => (Except.error e, w1)
      | (Except.ok databaseId, w1) =>
        match importFromCsv.uploadRows N databaseId headers rows 0 w1 with
        | (Except.error e, w2) => (Except.error e, w2)
        | (Except.ok rowCount, w2) =>
          (Except.ok rowCount,
            (w2.emit (Event.consoleLog
              ["CSV processing complete! " ++ toString rowCount ++
                " rows added to Notion table."])).emit Event.appQuit)

/-! ## Reading a trace -/

/-- The requests of the `notion.databases.create` calls of a trace, in order. -/
def databaseCalls (trace : List Event) : List DatabaseCreateRequest :=
  trace.filterMap (fun e =>
    match e with
    | Event.databasesCreate req => some req
    | _ => none)

/-- The requests of the `notion.pages.create` calls of a trace, in order. -/
def pageCalls (trace : List Event) : List PageCreateRequest :=
  trace.filterMap (fun e =>
    match e with
    | Event.pagesCreate req => some req
    | _ => none)

/-- Whether a computation ended by throwing. -/
def threw {α : Type} (r : Except JsError α) : Bool :=
  match r with
  | Except.error _ => true
  | Except.ok _ => false

/-! ## Sample clients and inputs -/

/-- A sample environment: page id `page-1`, `basename` the identity. -/
def sampleConfig : Config :=
  { NOTION_PAGE_ID := "page-1", basename := fun p => p }

/-- A client whose calls all succeed; the remote state counts the calls. -/
def acceptAll : Notion Nat :=
  { databasesCreate := fun _ n => (Except.ok ⟨"db-1"⟩, n + 1),
    pagesCreate := fun _ n => (Except.ok ⟨"page"⟩, n + 1) }

/-- A client that creates tables and rejects every record. -/
def rejectPages : Notion Nat :=
  { databasesCreate := fun _ n => (Except.ok ⟨"db-1"⟩, n + 1),
    pagesCreate := fun _ n => (Except.error ⟨"rate limited"⟩, n + 1) }

/-- A client that rejects the record of every second call (remote states
    1, 3, ...), and creates tables. -/
def rejectOdd : Notion Nat :=
  { databasesCreate := fun _ n => (Except.ok ⟨"db-1"⟩, n + 1),
    pagesCreate := fun _ n =>
      (if n % 2 = 1 then Except.error ⟨"rate limited"⟩ else Except.ok ⟨"page"⟩, n + 1) }

/-- A client that rejects every table creation. -/
def rejectDatabase : Notion Nat :=
  { databasesCreate := fun _ n => (Except.error ⟨"validation_error"⟩, n + 1),
    pagesCreate := fun _ n => (Except.ok ⟨"page"⟩, n + 1) }

/-- The initial world: no call made, nothing printed. -/
def world0 : World Nat :=
  { remote := 0, trace := [] }

/-- The rows of the example of the specification. -/
def rowA : Row := [("Name", Cell.str "A"), ("Age", Cell.str "1")]

/-- The second row of the example, with an empty `Age`. -/
def rowB : Row := [("Name", Cell.str "B"), ("Age", Cell.str "")]

/-- A row that holds only `Name`. -/
def rowNameOnly : Row := [("Name", Cell.str "B")]

/-- A row with an own property `__proto__`, as `JSON.parse` makes one. -/
def rowProto : Row := [("__proto__", Cell.str "x"), ("Age", Cell.str "1")]

/-- A row with an own property `__proto__` that holds the empty string. -/
def rowProtoEmpty : Row := [("Name", Cell.str "B"), ("__proto__", Cell.str "")]

/-- A row without any own property. -/
def rowEmpty : Row := []


/-! ## Objects -/

theorem Obj.get_put_self {α : Type} (o : Obj α) (k : String) (v : α) :
    Obj.get (Obj.put o k v) k = some v := by
  induction o with
  | nil => simp [Obj.put, Obj.get]
  | cons p rest ih =>
    obtain ⟨k1, v1⟩ := p
    by_cases h : k1 = k
    · simp [Obj.put, Obj.get, h]
    · simp [Obj.put, Obj.get, h, ih]

theorem Obj.get_put_ne {α : Type} (o : Obj α) (k k2 : String) (v : α) (hne : k2 ≠ k) :
    Obj.get (Obj.put o k v) k2 = Obj.get o k2 := by
  induction o with
  | nil =>
    have : ¬ k = k2 := fun h => hne h.symm
    simp [Obj.put, Obj.get, this]
  | cons p rest ih =>
    obtain ⟨k1, v1⟩ := p
    by_cases h : k1 = k
    · subst h
      have : ¬ k1 = k2 := fun h => hne h.symm
      simp [Obj.put, Obj.get, this]
    · by_cases h2 : k1 = k2
      · subst h2
        simp [Obj.put, Obj.get, h]
      · simp [Obj.put, Obj.get, h, h2, ih]

theorem Obj.names_put {α : Type} (o : Obj α) (k : String) (v : α) :
    Obj.names (Obj.put o k v) =
      if k ∈ Obj.names o then Obj.names o else Obj.names o ++ [k] := by
  induction o with
  | nil => simp [Obj.put, Obj.names]
  | cons p rest ih =>
    obtain ⟨k1, v1⟩ := p
    by_cases h : k1 = k
    · subst h
      simp [Obj.put, Obj.names]
    · have h2 : ¬ k = k1 := fun e => h e.symm
      simp only [Obj.names] at ih
      by_cases hm : k ∈ List.map Prod.fst rest
      · simp [Obj.put, Obj.names, h, h2, hm, ih]
      · simp [Obj.put, Obj.names, h, h2, hm, ih]

theorem Obj.mem_names_put {α : Type} (o : Obj α) (k k2 : String) (v : α) :
    k2 ∈ Obj.names (Obj.put o k v) ↔ k2 ∈ Obj.names o ∨ k2 = k := by
  rw [Obj.names_put]
  by_cases hm : k ∈ Obj.names o
  · simp only [hm, if_true]
    constructor
    · intro h; exact Or.inl h
    · rintro (h | h)
      · exact h
      · subst h; exact hm
  · simp [hm]

theorem Obj.get_eq_none_iff {α : Type} (o : Obj α) (k : String) :
    Obj.get o k = none ↔ k ∉ Obj.names o := by
  induction o with
  | nil => simp [Obj.get, Obj.names]
  | cons p rest ih =>
    obtain ⟨k1, v1⟩ := p
    simp only [Obj.names] at ih
    by_cases h : k1 = k
    · simp [Obj.get, Obj.names, h]
    · have h2 : ¬ k = k1 := fun e => h e.symm
      simp [Obj.get, Obj.names, h, h2, ih]

/-- An assignment under a name other than `__proto__` defines or updates the
    own property. -/
theorem Obj.set_of_ne_proto {α : Type} (o : Obj α) (k : String) (v : α)
    (hk : k ≠ "__proto__") : Obj.set o k v = Obj.put o k v := by
  simp [Obj.set, hk]

/-- On an object without an own `__proto__`, the assignment of `__proto__`
    leaves the own properties as they are. -/
theorem Obj.set_proto {α : Type} (o : Obj α) (v : α)
    (ho : "__proto__" ∉ Obj.names o) : Obj.set o "__proto__" v = o := by
  have hget : Obj.get o "__proto__" = none := (Obj.get_eq_none_iff o "__proto__").mpr ho
  simp [Obj.set, hget]

theorem Obj.get_set_self {α : Type} (o : Obj α) (k : String) (v : α)
    (hk : k ≠ "__proto__") : Obj.get (Obj.set o k v) k = some v := by
  rw [Obj.set_of_ne_proto o k v hk, Obj.get_put_self]

theorem Obj.get_set_ne {α : Type} (o : Obj α) (k k2 : String) (v : α) (hne : k2 ≠ k) :
    Obj.get (Obj.set o k v) k2 = Obj.get o k2 := by
  unfold Obj.set
  split
  · split
    · rfl
    · exact Obj.get_put_ne o k k2 v hne
  · exact Obj.get_put_ne o k k2 v hne

theorem Obj.mem_names_set {α : Type} (o : Obj α) (k k2 : String) (v : α)
    (ho : "__proto__" ∉ Obj.names o) :
    k2 ∈ Obj.names (Obj.set o k v) ↔ k2 ∈ Obj.names o ∨ (k2 = k ∧ k ≠ "__proto__") := by
  by_cases hk : k = "__proto__"
  · subst hk
    rw [Obj.set_proto o v ho]
    simp
  · rw [Obj.set_of_ne_proto o k v hk, Obj.mem_names_put]
    simp [hk]

theorem Obj.not_proto_mem_names_set {α : Type} (o : Obj α) (k : String) (v : α)
    (ho : "__proto__" ∉ Obj.names o) : "__proto__" ∉ Obj.names (Obj.set o k v) := by
  rw [Obj.mem_names_set o k "__proto__" v ho]
  rintro (h | ⟨h1, h2⟩)
  · exact ho h
  · exact h2 h1.symm

/-- The names listed by `Object.keys` are the names of the own properties. -/
theorem Obj.mem_keys_iff {α : Type} (o : Obj α) (k : String) :
    k ∈ Obj.keys o ↔ k ∈ Obj.names o := by
  unfold Obj.keys
  rw [List.mem_append, List.mem_map, List.mem_filter]
  constructor
  · rintro (⟨p, hp, hpk⟩ | ⟨h, _⟩)
    · rw [(List.perm_insertionSort _ _).mem_iff, List.mem_filterMap] at hp
      obtain ⟨q, hq, hqp⟩ := hp
      cases hidx : arrayIndex q.1 with
      | none => simp [hidx] at hqp
      | some n =>
        simp [hidx] at hqp
        subst hqp
        simp at hpk
        subst hpk
        exact List.mem_map_of_mem Prod.fst hq
    · exact h
  · intro h
    cases hidx : arrayIndex k with
    | none => exact Or.inr ⟨h, by simp [hidx]⟩
    | some n =>
      left
      obtain ⟨q, hq, hqk⟩ := List.mem_map.mp h
      refine ⟨(n, k), ?_, rfl⟩
      rw [(List.perm_insertionSort _ _).mem_iff, List.mem_filterMap]
      refine ⟨q, hq, ?_⟩
      rw [hqk, hidx]
      rfl

/-- The call `Object.keys` lists every own property once. -/
theorem Obj.length_keys {α : Type} (o : Obj α) :
    (Obj.keys o).length = (Obj.names o).length := by
  have key : (o.filterMap (fun p => (arrayIndex p.1).map (fun n => (n, p.1)))).length +
      ((o.map Prod.fst).filter (fun k => (arrayIndex k).isNone)).length = o.length := by
    induction o with
    | nil => simp
    | cons p rest ih =>
      cases hidx : arrayIndex p.1 with
      | none =>
        have h1 : (fun p : String × α => (arrayIndex p.1).map (fun n => (n, p.1))) p = none := by
          simp [hidx]
        have h2 : List.filterMap
              (fun p : String × α => (arrayIndex p.1).map (fun n => (n, p.1))) (p :: rest) =
            List.filterMap
              (fun p : String × α => (arrayIndex p.1).map (fun n => (n, p.1))) rest :=
          List.filterMap_cons_none h1
        rw [h2]
        simp only [List.map_cons, List.filter_cons, hidx, Option.isNone_none, if_true,
          List.length_cons]
        omega
      | some n =>
        have h1 : (fun p : String × α => (arrayIndex p.1).map (fun n => (n, p.1))) p =
            some (n, p.1) := by
          simp [hidx]
        have h2 : List.filterMap
              (fun p : String × α => (arrayIndex p.1).map (fun n => (n, p.1))) (p :: rest) =
            (n, p.1) :: List.filterMap
              (fun p : String × α => (arrayIndex p.1).map (fun n => (n, p.1))) rest :=
          List.filterMap_cons_some h1
        rw [h2]
        simp only [List.map_cons, List.filter_cons, hidx, Option.isNone_some, List.length_cons,
          Bool.false_eq_true, if_false]
        omega
  unfold Obj.keys Obj.names
  rw [List.length_append, List.length_map, (List.perm_insertionSort _ _).length_eq, key,
    List.length_map]

/-! ## Objects built by a `forEach` loop of assignments -/

theorem build_get_of_not_mem {α : Type} (f : String → Nat → α) (hs : List String) (i : Nat)
    (acc : Obj α) (k : String) (hk : k ∉ hs) :
    Obj.get (forEachFrom hs i (fun h idx o => Obj.set o h (f h idx)) acc) k = Obj.get acc k := by
  induction hs generalizing i acc with
  | nil => rfl
  | cons x xs ih =>
    have hx : k ≠ x := fun e => hk (by simp [e])
    have hxs : k ∉ xs := fun e => hk (by simp [e])
    simp only [forEachFrom]
    rw [ih (i + 1) _ hxs, Obj.get_set_ne _ _ _ _ hx]

theorem build_mem_names {α : Type} (f : String → Nat → α) (hs : List String) (i : Nat)
    (acc : Obj α) (k : String) (hacc : "__proto__" ∉ Obj.names acc) :
    k ∈ Obj.names (forEachFrom hs i (fun h idx o => Obj.set o h (f h idx)) acc) ↔
      k ∈ Obj.names acc ∨ (k ∈ hs ∧ k ≠ "__proto__") := by
  induction hs generalizing i acc with
  | nil => simp [forEachFrom]
  | cons x xs ih =>
    simp only [forEachFrom]
    rw [ih (i + 1) _ (Obj.not_proto_mem_names_set acc x _ hacc), Obj.mem_names_set _ _ _ _ hacc]
    simp only [List.mem_cons]
    constructor
    · rintro ((h | ⟨h1, h2⟩) | ⟨h1, h2⟩)
      · exact Or.inl h
      · subst h1
        exact Or.inr ⟨Or.inl rfl, h2⟩
      · exact Or.inr ⟨Or.inr h1, h2⟩
    · rintro (h | ⟨h1 | h1, h2⟩)
      · exact Or.inl (Or.inl h)
      · subst h1
        exact Or.inl (Or.inr ⟨rfl, h2⟩)
      · exact Or.inr ⟨h1, h2⟩

theorem build_names_nodup {α : Type} (f : String → Nat → α) (hs : List String) (i : Nat)
    (acc : Obj α) (hnd : hs.Nodup) (hproto : "__proto__" ∉ hs)
    (hdisj : ∀ h ∈ hs, h ∉ Obj.names acc) :
    Obj.names (forEachFrom hs i (fun h idx o => Obj.set o h (f h idx)) acc) =
      Obj.names acc ++ hs := by
  induction hs generalizing i acc with
  | nil => simp [forEachFrom]
  | cons x xs ih =>
    have hx : x ∉ Obj.names acc := hdisj x (by simp)
    have hnd2 : xs.Nodup := (List.nodup_cons.mp hnd).2
    have hxx : x ∉ xs := (List.nodup_cons.mp hnd).1
    have hxp : x ≠ "__proto__" := fun e => hproto (by simp [e])
    have hproto2 : "__proto__" ∉ xs := fun e => hproto (by simp [e])
    simp only [forEachFrom]
    rw [ih (i + 1) _ hnd2 hproto2]
    · rw [Obj.set_of_ne_proto _ _ _ hxp, Obj.names_put]
      simp [hx]
    · intro h hh
      rw [Obj.set_of_ne_proto _ _ _ hxp, Obj.mem_names_put]
      rintro (h1 | h1)
      · exact hdisj h (by simp [hh]) h1
      · subst h1
        exact hxx hh

theorem build_get_nodup {α : Type} (f : String → Nat → α) (hs : List String) (i : Nat)
    (acc : Obj α) (hnd : hs.Nodup) (j : Nat) (h : String) (hj : hs[j]? = some h)
    (hp : h ≠ "__proto__") :
    Obj.get (forEachFrom hs i (fun h idx o => Obj.set o h (f h idx)) acc) h =
      some (f h (i + j)) := by
  induction hs generalizing i acc j with
  | nil => simp at hj
  | cons x xs ih =>
    have hnd2 : xs.Nodup := (List.nodup_cons.mp hnd).2
    have hxx : x ∉ xs := (List.nodup_cons.mp hnd).1
    simp only [forEachFrom]
    cases j with
    | zero =>
      simp at hj
      subst hj
      rw [build_get_of_not_mem f xs (i + 1) _ x hxx, Obj.get_set_self _ _ _ hp]
      rfl
    | succ j =>
      simp at hj
      rw [ih (i + 1) _ hnd2 j hj]
      congr 2
      omega

theorem build_get_pair {α β : Type} (f : String → Nat → α) (g : String → Nat → β)
    (hs : List String) (i : Nat) (acc1 : Obj α) (acc2 : Obj β) (k : String) (hk : k ∈ hs)
    (hp : k ≠ "__proto__") :
    ∃ idx,
      Obj.get (forEachFrom hs i (fun h idx o => Obj.set o h (f h idx)) acc1) k =
        some (f k idx) ∧
      Obj.get (forEachFrom hs i (fun h idx o => Obj.set o h (g h idx)) acc2) k =
        some (g k idx) := by
  induction hs generalizing i acc1 acc2 with
  | nil => simp at hk
  | cons x xs ih =>
    simp only [forEachFrom]
    by_cases hxs : k ∈ xs
    · exact ih (i + 1) _ _ hxs
    · have hkx : k = x := by
        rcases List.mem_cons.mp hk with h | h
        · exact h
        · exact absurd h hxs
      subst hkx
      refine ⟨i, ?_, ?_⟩
      · rw [build_get_of_not_mem f xs (i + 1) _ k hxs, Obj.get_set_self _ _ _ hp]
      · rw [build_get_of_not_mem g xs (i + 1) _ k hxs, Obj.get_set_self _ _ _ hp]

/-! ## The two functions, case by case -/

theorem createDynamicDatabase_guard {σ : Type} (C : Config) (N : Notion σ)
    (headers : Option (List String)) (csvFilePath : String) (w : World σ)
    (h : headers = none ∨ headers = some []) :
    createDynamicDatabase C N headers csvFilePath w =
      (Except.error ⟨"CSV file must have at least one column header"⟩,
        w.emit (Event.consoleError
          ["Error creating database :: ", "CSV file must have at least one column header"])) := by
  rcases h with h | h <;> subst h <;> rfl

theorem createDynamicDatabase_ok {σ : Type} (C : Config) (N : Notion σ)
    (hs : List String) (csvFilePath : String) (w : World σ) (hne : hs ≠ [])
    (response : Response) (s : σ)
    (hcall : N.databasesCreate (databaseRequest C hs csvFilePath) w.remote =
      (Except.ok response, s)) :
    createDynamicDatabase C N (some hs) csvFilePath w =
      (Except.ok response.id,
        { remote := s,
          trace := w.trace ++ [Event.databasesCreate (databaseRequest C hs csvFilePath)] ++
            [Event.consoleLog ["Created database :: ID = " ++ response.id]] }) := by
  have hlen : ¬ hs.length = 0 := by
    intro h0
    exact hne (List.length_eq_zero.mp h0)
  simp [createDynamicDatabase, tryCatch, awaitDatabasesCreate, hlen, hcall, World.emit]

theorem createDynamicDatabase_error {σ : Type} (C : Config) (N : Notion σ)
    (hs : List String) (csvFilePath : String) (w : World σ) (hne : hs ≠ [])
    (e : JsError) (s : σ)
    (hcall : N.databasesCreate (databaseRequest C hs csvFilePath) w.remote =
      (Except.error e, s)) :
    createDynamicDatabase C N (some hs) csvFilePath w =
      (Except.error e,
        { remote := s,
          trace := w.trace ++ [Event.databasesCreate (databaseRequest C hs csvFilePath)] ++
            [Event.consoleError ["Error creating database :: ", e.message]] }) := by
  have hlen : ¬ hs.length = 0 := by
    intro h0
    exact hne (List.length_eq_zero.mp h0)
  simp [createDynamicDatabase, tryCatch, awaitDatabasesCreate, hlen, hcall, World.emit]

theorem addRowToDatabase_ok {σ : Type} (N : Notion σ) (databaseId : String) (row : Row)
    (headers : List String) (w : World σ) (response : Response) (s : σ)
    (hcall : N.pagesCreate (pageRequest databaseId row headers) w.remote =
      (Except.ok response, s)) :
    addRowToDatabase N databaseId row headers w =
      (Except.ok (some response),
        { remote := s,
          trace := w.trace ++ [Event.pagesCreate (pageRequest databaseId row headers)] ++
            [Event.consoleLog ["Added row :: " ++ rowLabel row headers]] }) := by
  simp [addRowToDatabase, tryCatch, awaitPagesCreate, hcall, World.emit]

theorem addRowToDatabase_error {σ : Type} (N : Notion σ) (databaseId : String) (row : Row)
    (headers : List String) (w : World σ) (e : JsError) (s : σ)
    (hcall : N.pagesCreate (pageRequest databaseId row headers) w.remote =
      (Except.error e, s)) :
    addRowToDatabase N databaseId row headers w =
      (Except.ok none,
        { remote := s,
          trace := w.trace ++ [Event.pagesCreate (pageRequest databaseId row headers)] ++
            [Event.consoleError
              ["Error adding row \"" ++ rowLabel row headers ++ "\" :: ", e.message]] }) := by
  simp [addRowToDatabase, tryCatch, awaitPagesCreate, hcall, World.emit]

/-- In every case `addRowToDatabase` returns normally, after one call of
    `notion.pages.create` and one console line. -/
theorem addRowToDatabase_total {σ : Type} (N : Notion σ) (databaseId : String) (row : Row)
    (headers : List String) (w : World σ) :
    ∃ v line,
      (addRowToDatabase N databaseId row headers w).1 = Except.ok v ∧
      (addRowToDatabase N databaseId row headers w).2.trace =
        w.trace ++ [Event.pagesCreate (pageRequest databaseId row headers)] ++ [line] ∧
      pageCalls [line] = [] ∧ databaseCalls [line] = [] := by
  cases hcall : N.pagesCreate (pageRequest databaseId row headers) w.remote with
  | mk r s =>
    cases r with
    | ok response =>
      rw [addRowToDatabase_ok N databaseId row headers w response s hcall]
      exact ⟨_, _, rfl, rfl, rfl, rfl⟩
    | error e =>
      rw [addRowToDatabase_error N databaseId row headers w e s hcall]
      exact ⟨_, _, rfl, rfl, rfl, rfl⟩

theorem pageCalls_append (t1 t2 : List Event) :
    pageCalls (t1 ++ t2) = pageCalls t1 ++ pageCalls t2 := by
  simp [pageCalls, List.filterMap_append]

theorem databaseCalls_append (t1 t2 : List Event) :
    databaseCalls (t1 ++ t2) = databaseCalls t1 ++ databaseCalls t2 := by
  simp [databaseCalls, List.filterMap_append]

/-- The upload loop always runs to its end: it returns `rowCount` raised by
    the number of rows, and makes one `notion.pages.create` call per row, in
    order, and no `notion.databases.create` call. -/
theorem uploadRows_spec {σ : Type} (N : Notion σ) (databaseId : String)
    (headers : List String) (rows : List Row) (rowCount : Nat) (w : World σ) :
    (importFromCsv.uploadRows N databaseId headers rows rowCount w).1 = Except.ok (rowCount + rows.length) ∧
    pageCalls (importFromCsv.uploadRows N databaseId headers rows rowCount w).2.trace =
      pageCalls w.trace ++ rows.map (fun row => pageRequest databaseId row headers) ∧
    databaseCalls (importFromCsv.uploadRows N databaseId headers rows rowCount w).2.trace =
      databaseCalls w.trace := by
  induction rows generalizing rowCount w with
  | nil => simp [importFromCsv.uploadRows]
  | cons row rest ih =>
    obtain ⟨v, line, hv, ht, hp, hd⟩ := addRowToDatabase_total N databaseId row headers w
    cases hstep : addRowToDatabase N databaseId row headers w with
    | mk r w1 =>
      rw [hstep] at hv ht
      simp only at hv ht
      subst hv
      have hunf : importFromCsv.uploadRows N databaseId headers (row :: rest) rowCount w =
          importFromCsv.uploadRows N databaseId headers rest (rowCount + 1) w1 := by
        simp [importFromCsv.uploadRows, hstep]
      rw [hunf]
      obtain ⟨h1, h2, h3⟩ := ih (rowCount + 1) w1
      refine ⟨?_, ?_, ?_⟩
      · rw [h1]
        simp only [List.length_cons]
        congr 1
        omega
      · rw [h2, ht, pageCalls_append, pageCalls_append, hp]
        simp [pageCalls]
      · rw [h3, ht, databaseCalls_append, databaseCalls_append, hd]
        simp [databaseCalls]

/-- When the `readable` listener has taken every record without throwing,
    `rows` holds the records in order, and `headers` is non-empty as soon as
    there is a record. -/
theorem readRecords_spec (records : List Row) (hs : List String) (rs : List Row)
    (headers : List String) (rows : List Row)
    (hread : importFromCsv.readRecords records (hs, rs) = Except.ok (headers, rows)) :
    rows = rs ++ records ∧ (hs ≠ [] → headers = hs) ∧
      (records ≠ [] → headers ≠ []) := by
  induction records generalizing hs rs with
  | nil =>
    simp only [importFromCsv.readRecords, Except.ok.injEq, Prod.mk.injEq] at hread
    obtain ⟨h1, h2⟩ := hread
    subst h1 h2
    simp
  | cons row more ih =>
    by_cases hhs : hs = []
    · subst hhs
      by_cases hk : Obj.keys row = []
      · simp [importFromCsv.readRecords, importFromCsv.onReadable, hk] at hread
      · have hlen : ¬ (Obj.keys row).length = 0 := fun h0 => hk (List.length_eq_zero.mp h0)
        have hstep : importFromCsv.readRecords (row :: more) ([], rs) =
            importFromCsv.readRecords more (Obj.keys row, rs ++ [row]) := by
          simp [importFromCsv.readRecords, importFromCsv.onReadable, hlen]
        rw [hstep] at hread
        obtain ⟨h1, h2, _⟩ := ih (Obj.keys row) (rs ++ [row]) hread
        refine ⟨by simp [h1], fun h => absurd rfl h, fun _ => ?_⟩
        rw [h2 hk]
        exact hk
    · have hlen : ¬ hs.length = 0 := fun h0 => hhs (List.length_eq_zero.mp h0)
      have hstep : importFromCsv.readRecords (row :: more) (hs, rs) = importFromCsv.readRecords more (hs, rs ++ [row]) := by
        simp [importFromCsv.readRecords, importFromCsv.onReadable, hlen]
      rw [hstep] at hread
      obtain ⟨h1, h2, _⟩ := ih hs (rs ++ [row]) hread
      refine ⟨by simp [h1], fun _ => h2 hhs, fun _ => ?_⟩
      rw [h2 hhs]
      exact hhs

/-! ## The claims -/

/-- C1 (amended): for a header of `W ≥ 1` distinct names, none of them
    `__proto__`, the `properties` object of the request that
    `createDynamicDatabase` passes to `notion.databases.create` has exactly
    `W` fields, the names of the header; the field of index 0 is
    `{ type: 'title', title: {} }` and every field of a later index is
    `{ type: 'rich_text', rich_text: {} }`.  No row takes part in it. -/
theorem createDynamicDatabase_schema {σ : Type} (C : Config) (N : Notion σ)
    (headers : List String) (csvFilePath : String) (w : World σ)
    (hW : 1 ≤ headers.length) (hnd : headers.Nodup) (hproto : "__proto__" ∉ headers) :
    (∃ line, (createDynamicDatabase C N (some headers) csvFilePath w).2.trace =
      w.trace ++ [Event.databasesCreate (databaseRequest C headers csvFilePath), line]) ∧
    (Obj.keys (databaseRequest C headers csvFilePath).properties).length = headers.length ∧
    (∀ k, k ∈ Obj.keys (databaseRequest C headers csvFilePath).properties ↔ k ∈ headers) ∧
    (∀ h, headers[0]? = some h →
      Obj.get (databaseRequest C headers csvFilePath).properties h =
        some { type := "title", member := "title" }) ∧
    (∀ j h, 0 < j → headers[j]? = some h →
      Obj.get (databaseRequest C headers csvFilePath).properties h =
        some { type := "rich_text", member := "rich_text" }) := by
  have hne : headers ≠ [] := by
    intro h0
    rw [h0] at hW
    simp at hW
  have hmemp : ∀ (j : Nat) (h : String), headers[j]? = some h → h ≠ "__proto__" := by
    intro j h hj e
    subst e
    exact hproto (List.getElem?_mem hj)
  refine ⟨?_, ?_, ?_, ?_, ?_⟩
  · cases hcall : N.databasesCreate (databaseRequest C headers csvFilePath) w.remote with
    | mk r s =>
      cases r with
      | ok response =>
        rw [createDynamicDatabase_ok C N headers csvFilePath w hne response s hcall]
        exact ⟨Event.consoleLog ["Created database :: ID = " ++ response.id], by simp⟩
      | error e =>
        rw [createDynamicDatabase_error C N headers csvFilePath w hne e s hcall]
        exact ⟨Event.consoleError ["Error creating database :: ", e.message], by simp⟩
  · show (Obj.keys (schemaProperties headers)).length = headers.length
    rw [Obj.length_keys]
    unfold schemaProperties forEach
    rw [build_names_nodup _ headers 0 [] hnd hproto (by simp [Obj.names])]
    simp [Obj.names]
  · intro k
    show k ∈ Obj.keys (schemaProperties headers) ↔ k ∈ headers
    rw [Obj.mem_keys_iff]
    unfold schemaProperties forEach
    rw [build_mem_names _ headers 0 [] k (by simp [Obj.names])]
    constructor
    · rintro (h | ⟨h, _⟩)
      · simp [Obj.names] at h
      · exact h
    · intro h
      exact Or.inr ⟨h, fun e => hproto (e ▸ h)⟩
  · intro h hh
    show Obj.get (schemaProperties headers) h = _
    unfold schemaProperties forEach
    rw [build_get_nodup _ headers 0 [] hnd 0 h hh (hmemp 0 h hh)]
    simp
  · intro j h hj hh
    show Obj.get (schemaProperties headers) h = _
    unfold schemaProperties forEach
    rw [build_get_nodup _ headers 0 [] hnd j h hh (hmemp j h hh)]
    have : ¬ j = 0 := by omega
    simp [this]

/-- Witness of C1 on the header `[Name, Age]`. -/
theorem createDynamicDatabase_schema_witness :
    (1 ≤ ["Name", "Age"].length ∧ ["Name", "Age"].Nodup ∧ "__proto__" ∉ ["Name", "Age"]) ∧
    ((∃ line, (createDynamicDatabase sampleConfig acceptAll (some ["Name", "Age"])
        "people.csv" world0).2.trace =
      world0.trace ++
        [Event.databasesCreate (databaseRequest sampleConfig ["Name", "Age"] "people.csv"),
          line]) ∧
    (Obj.keys (databaseRequest sampleConfig ["Name", "Age"] "people.csv").properties).length =
      ["Name", "Age"].length ∧
    (∀ k, k ∈ Obj.keys (databaseRequest sampleConfig ["Name", "Age"] "people.csv").properties ↔
      k ∈ ["Name", "Age"]) ∧
    (∀ h, ["Name", "Age"][0]? = some h →
      Obj.get (databaseRequest sampleConfig ["Name", "Age"] "people.csv").properties h =
        some { type := "title", member := "title" }) ∧
    (∀ j h, 0 < j → ["Name", "Age"][j]? = some h →
      Obj.get (databaseRequest sampleConfig ["Name", "Age"] "people.csv").properties h =
        some { type := "rich_text", member := "rich_text" })) :=
  ⟨⟨by decide, by decide, by decide⟩,
    createDynamicDatabase_schema sampleConfig acceptAll ["Name", "Age"] "people.csv" world0
      (by decide) (by decide) (by decide)⟩

/-- Counterexample to C1 as stated: the header `[__proto__, Age]` has two
    distinct names, yet the `properties` passed to `notion.databases.create`
    have the single field `Age`, of type `rich_text`: the assignment of
    `__proto__` replaced the prototype, and no field is a title. -/
theorem createDynamicDatabase_schema_counterexample :
    (1 ≤ ["__proto__", "Age"].length ∧ ["__proto__", "Age"].Nodup) ∧
    (createDynamicDatabase sampleConfig acceptAll (some ["__proto__", "Age"]) "people.csv"
        world0).2.trace =
      [Event.databasesCreate (databaseRequest sampleConfig ["__proto__", "Age"] "people.csv"),
        Event.consoleLog ["Created database :: ID = db-1"]] ∧
    (databaseRequest sampleConfig ["__proto__", "Age"] "people.csv").properties =
      [("Age", { type := "rich_text", member := "rich_text" })] ∧
    (Obj.keys (databaseRequest sampleConfig ["__proto__", "Age"] "people.csv").properties).length
      ≠ ["__proto__", "Age"].length ∧
    Obj.get (databaseRequest sampleConfig ["__proto__", "Age"] "people.csv").properties
      "__proto__" = none :=
  ⟨⟨by decide, by decide⟩, by decide, by decide, by decide, by decide⟩

/-- C6: when no record was collected, the `end` listener prints the
    'no valid data' message, quits, and makes no `notion.databases.create` and
    no `notion.pages.create` call: the remote state is untouched. -/
theorem onEnd_empty_dataset {σ : Type} (C : Config) (N : Notion σ)
    (headers : List String) (csvFilePath : String) (w : World σ) :
    importFromCsv.onEnd C N headers [] csvFilePath w =
      (Except.ok 0,
        { remote := w.remote,
          trace := w.trace ++
            [Event.consoleError ["Error :: CSV file is empty or contains no valid data"],
              Event.appQuit] }) ∧
    databaseCalls (importFromCsv.onEnd C N headers [] csvFilePath w).2.trace = databaseCalls w.trace ∧
    pageCalls (importFromCsv.onEnd C N headers [] csvFilePath w).2.trace = pageCalls w.trace := by
  have h : importFromCsv.onEnd C N headers [] csvFilePath w =
      (Except.ok 0,
        { remote := w.remote,
          trace := w.trace ++
            [Event.consoleError ["Error :: CSV file is empty or contains no valid data"],
              Event.appQuit] }) := by
    simp [importFromCsv.onEnd, World.emit]
  refine ⟨h, ?_, ?_⟩
  · rw [h, databaseCalls_append]
    simp [databaseCalls]
  · rw [h, pageCalls_append]
    simp [pageCalls]

/-- C7: with at least one record and a non-empty header, when the call of
    `notion.databases.create` rejects with `e`, `createDynamicDatabase` throws
    that same `e`, the `end` listener ends with it, and the whole trace of the
    listener is that single table-creation call followed by the
    'Error creating database' line: no second attempt and no
    `notion.pages.create` call. -/
theorem publish_failure_fatal {σ : Type} (C : Config) (N : Notion σ)
    (headers : List String) (rows : List Row) (csvFilePath : String) (w : World σ)
    (e : JsError) (s : σ) (hrows : rows ≠ []) (hheaders : headers ≠ [])
    (hfail : N.databasesCreate (databaseRequest C headers csvFilePath) w.remote =
      (Except.error e, s)) :
    (createDynamicDatabase C N (some headers) csvFilePath w).1 = Except.error e ∧
    (importFromCsv.onEnd C N headers rows csvFilePath w).1 = Except.error e ∧
    (importFromCsv.onEnd C N headers rows csvFilePath w).2.trace =
      w.trace ++ [Event.databasesCreate (databaseRequest C headers csvFilePath),
        Event.consoleError ["Error creating database :: ", e.message]] ∧
    databaseCalls (importFromCsv.onEnd C N headers rows csvFilePath w).2.trace =
      databaseCalls w.trace ++ [databaseRequest C headers csvFilePath] ∧
    pageCalls (importFromCsv.onEnd C N headers rows csvFilePath w).2.trace = pageCalls w.trace := by
  have hc := createDynamicDatabase_error C N headers csvFilePath w hheaders e s hfail
  have hlen : ¬ rows.length = 0 := by
    intro h0
    exact hrows (List.length_eq_zero.mp h0)
  have hend : importFromCsv.onEnd C N headers rows csvFilePath w =
      (Except.error e,
        { remote := s,
          trace := w.trace ++ [Event.databasesCreate (databaseRequest C headers csvFilePath)] ++
            [Event.consoleError ["Error creating database :: ", e.message]] }) := by
    simp [importFromCsv.onEnd, hlen, hc]
  refine ⟨?_, ?_, ?_, ?_, ?_⟩
  · rw [hc]
  · rw [hend]
  · rw [hend]
    simp
  · rw [hend]
    simp [databaseCalls_append, databaseCalls]
  · rw [hend]
    simp [pageCalls_append, pageCalls]

/-- Witness of C7: the example rows against a client that rejects every
    table creation. -/
theorem publish_failure_fatal_witness :
    ([rowA, rowB] ≠ [] ∧ ["Name", "Age"] ≠ [] ∧
      rejectDatabase.databasesCreate
          (databaseRequest sampleConfig ["Name", "Age"] "people.csv") world0.remote =
        (Except.error ⟨"validation_error"⟩, 1)) ∧
    ((createDynamicDatabase sampleConfig rejectDatabase (some ["Name", "Age"])
        "people.csv" world0).1 = Except.error ⟨"validation_error"⟩ ∧
    (importFromCsv.onEnd sampleConfig rejectDatabase ["Name", "Age"] [rowA, rowB] "people.csv" world0).1 =
      Except.error ⟨"validation_error"⟩ ∧
    (importFromCsv.onEnd sampleConfig rejectDatabase ["Name", "Age"] [rowA, rowB] "people.csv" world0).2.trace =
      world0.trace ++
        [Event.databasesCreate (databaseRequest sampleConfig ["Name", "Age"] "people.csv"),
          Event.consoleError ["Error creating database :: ",
            (⟨"validation_error"⟩ : JsError).message]] ∧
    databaseCalls
        (importFromCsv.onEnd sampleConfig rejectDatabase ["Name", "Age"] [rowA, rowB] "people.csv"
          world0).2.trace =
      databaseCalls world0.trace ++ [databaseRequest sampleConfig ["Name", "Age"] "people.csv"] ∧
    pageCalls
        (importFromCsv.onEnd sampleConfig rejectDatabase ["Name", "Age"] [rowA, rowB] "people.csv"
          world0).2.trace =
      pageCalls world0.trace) :=
  ⟨⟨by simp, by simp, rfl⟩,
    publish_failure_fatal sampleConfig rejectDatabase ["Name", "Age"] [rowA, rowB]
      "people.csv" world0 ⟨"validation_error"⟩ 1 (by simp) (by simp) rfl⟩

/-- C8: `createDynamicDatabase` throws exactly when the header is missing, or
    empty, or the header is non-empty and the call of
    `notion.databases.create` rejects; on a missing or empty header it throws
    the 'at least one column header' error, prints it, and makes no
    `notion.databases.create` call. -/
theorem createDynamicDatabase_fails_iff {σ : Type} (C : Config) (N : Notion σ)
    (headers : Option (List String)) (csvFilePath : String) (w : World σ) :
    (threw (createDynamicDatabase C N headers csvFilePath w).1 = true ↔
      (headers = none ∨ headers = some [] ∨
        ∃ hs, headers = some hs ∧ hs ≠ [] ∧
          threw (N.databasesCreate (databaseRequest C hs csvFilePath) w.remote).1 = true)) ∧
    ((headers = none ∨ headers = some []) →
      createDynamicDatabase C N headers csvFilePath w =
        (Except.error ⟨"CSV file must have at least one column header"⟩,
          { remote := w.remote,
            trace := w.trace ++ [Event.consoleError
              ["Error creating database :: ",
                "CSV file must have at least one column header"]] }) ∧
      databaseCalls (createDynamicDatabase C N headers csvFilePath w).2.trace =
        databaseCalls w.trace) := by
  constructor
  · cases headers with
    | none =>
      rw [createDynamicDatabase_guard C N none csvFilePath w (Or.inl rfl)]
      simp [threw]
    | some hs =>
      by_cases hne : hs = []
      · subst hne
        rw [createDynamicDatabase_guard C N (some []) csvFilePath w (Or.inr rfl)]
        simp [threw]
      · cases hcall : N.databasesCreate (databaseRequest C hs csvFilePath) w.remote with
        | mk r s =>
          cases r with
          | ok response =>
            rw [createDynamicDatabase_ok C N hs csvFilePath w hne response s hcall]
            simp [threw, hne, hcall]
          | error e =>
            rw [createDynamicDatabase_error C N hs csvFilePath w hne e s hcall]
            simp [threw, hne, hcall]
  · intro h
    rw [createDynamicDatabase_guard C N headers csvFilePath w h]
    refine ⟨rfl, ?_⟩
    simp [World.emit, databaseCalls_append, databaseCalls]

/-- Witness of C8: an empty header against a client that would accept. -/
theorem createDynamicDatabase_fails_iff_witness :
    ((some ([] : List String)) = none ∨ (some ([] : List String)) = some []) ∧
    (createDynamicDatabase sampleConfig acceptAll (some []) "people.csv" world0 =
        (Except.error ⟨"CSV file must have at least one column header"⟩,
          { remote := world0.remote,
            trace := world0.trace ++ [Event.consoleError
              ["Error creating database :: ",
                "CSV file must have at least one column header"]] }) ∧
      databaseCalls
          (createDynamicDatabase sampleConfig acceptAll (some []) "people.csv" world0).2.trace =
        databaseCalls world0.trace) :=
  ⟨Or.inr rfl,
    (createDynamicDatabase_fails_iff sampleConfig acceptAll (some []) "people.csv" world0).2
      (Or.inr rfl)⟩

/-- The field that `addRowToDatabase` sends for a header name other than
    `__proto__` holds one text item whose content is `row[name] || ''`. -/
theorem pageProperties_get (row : Row) (headers : List String) (h : String)
    (hmem : h ∈ headers) (hp : h ≠ "__proto__") :
    ∃ m, Obj.get (pageProperties row headers) h =
      some { member := m,
             items := [{ type := "text", content := (Row.at row h).or (Value.str "") }] } := by
  unfold pageProperties forEach
  obtain ⟨idx, h1, _⟩ := build_get_pair
    (fun header index =>
      ({ member := if index = 0 then "title" else "rich_text",
         items := [{ type := "text",
                     content := (Row.at row header).or (Value.str "") }] } : PageProperty))
    (fun header index =>
      ({ member := if index = 0 then "title" else "rich_text",
         items := [{ type := "text",
                     content := (Row.at row header).or (Value.str "") }] } : PageProperty))
    headers 0 [] [] h hmem hp
  exact ⟨_, h1⟩

/-- The fields that `addRowToDatabase` sends are named by the header, the
    name `__proto__` apart. -/
theorem pageProperties_mem_keys (row : Row) (headers : List String) (k : String) :
    k ∈ Obj.keys (pageProperties row headers) ↔ k ∈ headers ∧ k ≠ "__proto__" := by
  rw [Obj.mem_keys_iff]
  unfold pageProperties forEach
  rw [build_mem_names _ headers 0 [] k (by simp [Obj.names])]
  simp [Obj.names]

/-- The fields that `createDynamicDatabase` sends are named by the header,
    the name `__proto__` apart. -/
theorem schemaProperties_mem_keys (headers : List String) (k : String) :
    k ∈ Obj.keys (schemaProperties headers) ↔ k ∈ headers ∧ k ≠ "__proto__" := by
  rw [Obj.mem_keys_iff]
  unfold schemaProperties forEach
  rw [build_mem_names _ headers 0 [] k (by simp [Obj.names])]
  simp [Obj.names]

/-- C2 (amended): for a header of distinct names, none of them `__proto__`,
    and a record with a non-empty string under every header name, the
    `properties` that `addRowToDatabase` passes to `notion.pages.create` have
    exactly the header's names as fields, and the text content of each field
    is the record's value for that name. -/
theorem addRowToDatabase_round_trip {σ : Type} (N : Notion σ) (databaseId : String)
    (row : Row) (headers : List String) (w : World σ) (hnd : headers.Nodup)
    (hproto : "__proto__" ∉ headers)
    (hfull : ∀ h ∈ headers, ∃ s, s ≠ "" ∧ Obj.get row h = some (Cell.str s)) :
    (∃ line, (addRowToDatabase N databaseId row headers w).2.trace =
      w.trace ++ [Event.pagesCreate (pageRequest databaseId row headers), line]) ∧
    (Obj.keys (pageRequest databaseId row headers).properties).length = headers.length ∧
    (∀ k, k ∈ Obj.keys (pageRequest databaseId row headers).properties ↔ k ∈ headers) ∧
    (∀ h ∈ headers, ∀ s, Obj.get row h = some (Cell.str s) →
      ∃ m, Obj.get (pageRequest databaseId row headers).properties h =
        some { member := m, items := [{ type := "text", content := Value.str s }] }) := by
  refine ⟨?_, ?_, ?_, ?_⟩
  · obtain ⟨v, line, _, ht, _, _⟩ := addRowToDatabase_total N databaseId row headers w
    exact ⟨line, by rw [ht]; simp⟩
  · show (Obj.keys (pageProperties row headers)).length = headers.length
    rw [Obj.length_keys]
    unfold pageProperties forEach
    rw [build_names_nodup _ headers 0 [] hnd hproto (by simp [Obj.names])]
    simp [Obj.names]
  · intro k
    show k ∈ Obj.keys (pageProperties row headers) ↔ k ∈ headers
    rw [pageProperties_mem_keys]
    constructor
    · exact fun h => h.1
    · exact fun h => ⟨h, fun e => hproto (e ▸ h)⟩
  · intro h hmem s hs
    obtain ⟨s2, hs2, hget⟩ := hfull h hmem
    have hp : h ≠ "__proto__" := fun e => hproto (e ▸ hmem)
    obtain ⟨m, hm⟩ := pageProperties_get row headers h hmem hp
    refine ⟨m, ?_⟩
    show Obj.get (pageProperties row headers) h = _
    rw [hm]
    have hss : s2 = s := by
      rw [hget] at hs
      exact Cell.str.inj (Option.some.inj hs)
    subst hss
    have : (Row.at row h).or (Value.str "") = Value.str s2 := by
      simp [Row.at, hget, Cell.toValue, Value.or, Value.truthy, hs2]
    rw [this]

/-- Witness of C2: the first example row under the header `[Name, Age]`. -/
theorem addRowToDatabase_round_trip_witness :
    (["Name", "Age"].Nodup ∧ "__proto__" ∉ ["Name", "Age"] ∧
      ∀ h ∈ ["Name", "Age"], ∃ s, s ≠ "" ∧ Obj.get rowA h = some (Cell.str s)) ∧
    ((∃ line, (addRowToDatabase acceptAll "db-1" rowA ["Name", "Age"] world0).2.trace =
      world0.trace ++ [Event.pagesCreate (pageRequest "db-1" rowA ["Name", "Age"]), line]) ∧
    (Obj.keys (pageRequest "db-1" rowA ["Name", "Age"]).properties).length =
      ["Name", "Age"].length ∧
    (∀ k, k ∈ Obj.keys (pageRequest "db-1" rowA ["Name", "Age"]).properties ↔
      k ∈ ["Name", "Age"]) ∧
    (∀ h ∈ ["Name", "Age"], ∀ s, Obj.get rowA h = some (Cell.str s) →
      ∃ m, Obj.get (pageRequest "db-1" rowA ["Name", "Age"]).properties h =
        some { member := m, items := [{ type := "text", content := Value.str s }] })) :=
  have hfull : ∀ h ∈ ["Name", "Age"], ∃ s, s ≠ "" ∧ Obj.get rowA h = some (Cell.str s) := by
    intro h hh
    simp only [List.mem_cons, List.mem_singleton, List.not_mem_nil, or_false] at hh
    rcases hh with hh | hh
    · subst hh
      exact ⟨"A", by decide, by decide⟩
    · subst hh
      exact ⟨"1", by decide, by decide⟩
  ⟨⟨by decide, by decide, hfull⟩,
    addRowToDatabase_round_trip acceptAll "db-1" rowA ["Name", "Age"] world0 (by decide)
      (by decide) hfull⟩

/-- Counterexample to C2 as stated: under the header `[__proto__, Age]` the
    record holds the non-empty strings `x` and `1`, yet the `properties`
    passed to `notion.pages.create` have the single field `Age`: the value of
    the primary field is not sent. -/
theorem addRowToDatabase_round_trip_counterexample :
    (["__proto__", "Age"].Nodup ∧
      Obj.get rowProto "__proto__" = some (Cell.str "x") ∧
      Obj.get rowProto "Age" = some (Cell.str "1")) ∧
    (addRowToDatabase acceptAll "db-1" rowProto ["__proto__", "Age"] world0).2.trace =
      [Event.pagesCreate (pageRequest "db-1" rowProto ["__proto__", "Age"]),
        Event.consoleLog ["Added row :: x"]] ∧
    (pageRequest "db-1" rowProto ["__proto__", "Age"]).properties =
      [("Age", { member := "rich_text",
                 items := [{ type := "text", content := Value.str "1" }] })] ∧
    (Obj.keys (pageRequest "db-1" rowProto ["__proto__", "Age"]).properties).length ≠
      ["__proto__", "Age"].length ∧
    Obj.get (pageRequest "db-1" rowProto ["__proto__", "Age"]).properties "__proto__" = none :=
  ⟨⟨by decide, by decide, by decide⟩, by decide, by decide, by decide, by decide⟩

/-- C3 (amended): when the record has no value for a header name other than
    `__proto__` (the key holds `undefined` or the empty string, or the key is
    absent and is not the name of a member of `Object.prototype`), the
    `properties` passed to `notion.pages.create` still have a field of that
    name, and its text content is the empty string. -/
theorem missing_field_default {σ : Type} (N : Notion σ) (databaseId : String)
    (row : Row) (headers : List String) (w : World σ) (h : String) (hmem : h ∈ headers)
    (hproto : h ≠ "__proto__")
    (hmiss : (Obj.get row h = none ∧ h ∉ objectPrototypeMembers) ∨
      Obj.get row h = some Cell.undefined ∨ Obj.get row h = some (Cell.str "")) :
    (∃ line, (addRowToDatabase N databaseId row headers w).2.trace =
      w.trace ++ [Event.pagesCreate (pageRequest databaseId row headers), line]) ∧
    h ∈ Obj.keys (pageRequest databaseId row headers).properties ∧
    (∃ m, Obj.get (pageRequest databaseId row headers).properties h =
      some { member := m, items := [{ type := "text", content := Value.str "" }] }) := by
  refine ⟨?_, ?_, ?_⟩
  · obtain ⟨v, line, _, ht, _, _⟩ := addRowToDatabase_total N databaseId row headers w
    exact ⟨line, by rw [ht]; simp⟩
  · show h ∈ Obj.keys (pageProperties row headers)
    rw [pageProperties_mem_keys]
    exact ⟨hmem, hproto⟩
  · obtain ⟨m, hm⟩ := pageProperties_get row headers h hmem hproto
    refine ⟨m, ?_⟩
    show Obj.get (pageProperties row headers) h = _
    rw [hm]
    have : (Row.at row h).or (Value.str "") = Value.str "" := by
      rcases hmiss with ⟨h1, h2⟩ | h1 | h1
      · simp [Row.at, h1, h2, Value.or, Value.truthy]
      · simp [Row.at, h1, Cell.toValue, Value.or, Value.truthy]
      · simp [Row.at, h1, Cell.toValue, Value.or, Value.truthy]
    rw [this]

/-- Witness of C3: header `[Name, Age]`, record `{Name: "B", Age: ""}`, field
    `Age`. -/
theorem missing_field_default_witness :
    ("Age" ∈ ["Name", "Age"] ∧ "Age" ≠ "__proto__" ∧
      ((Obj.get rowB "Age" = none ∧ "Age" ∉ objectPrototypeMembers) ∨
        Obj.get rowB "Age" = some Cell.undefined ∨
        Obj.get rowB "Age" = some (Cell.str ""))) ∧
    ((∃ line, (addRowToDatabase acceptAll "db-1" rowB ["Name", "Age"] world0).2.trace =
      world0.trace ++ [Event.pagesCreate (pageRequest "db-1" rowB ["Name", "Age"]), line]) ∧
    "Age" ∈ Obj.keys (pageRequest "db-1" rowB ["Name", "Age"]).properties ∧
    (∃ m, Obj.get (pageRequest "db-1" rowB ["Name", "Age"]).properties "Age" =
      some { member := m, items := [{ type := "text", content := Value.str "" }] })) :=
  ⟨⟨by decide, by decide, Or.inr (Or.inr (by decide))⟩,
    missing_field_default acceptAll "db-1" rowB ["Name", "Age"] world0 "Age" (by decide)
      (by decide) (Or.inr (Or.inr (by decide)))⟩

/-- Counterexample to C3 as stated: the record `{Name: "B"}` has no value for
    the header name `toString`, yet the field `toString` is sent with the
    function inherited from `Object.prototype` as its content, not the empty
    string; and the record that holds the empty string under `__proto__` is
    sent, under the header `[Name, __proto__]`, without any field
    `__proto__`. -/
theorem missing_field_default_counterexample :
    ("toString" ∈ ["Name", "toString"] ∧ Obj.get rowNameOnly "toString" = none) ∧
    (addRowToDatabase acceptAll "db-1" rowNameOnly ["Name", "toString"] world0).2.trace =
      [Event.pagesCreate (pageRequest "db-1" rowNameOnly ["Name", "toString"]),
        Event.consoleLog ["Added row :: B"]] ∧
    Obj.get (pageRequest "db-1" rowNameOnly ["Name", "toString"]).properties "toString" =
      some { member := "rich_text",
             items := [{ type := "text", content := Value.inherited "toString" }] } ∧
    Value.inherited "toString" ≠ Value.str "" ∧
    ("__proto__" ∈ ["Name", "__proto__"] ∧
      Obj.get rowProtoEmpty "__proto__" = some (Cell.str "")) ∧
    (pageRequest "db-1" rowProtoEmpty ["Name", "__proto__"]).properties =
      [("Name", { member := "title",
                  items := [{ type := "text", content := Value.str "B" }] })] ∧
    "__proto__" ∉
      Obj.keys (pageRequest "db-1" rowProtoEmpty ["Name", "__proto__"]).properties :=
  ⟨⟨by decide, by decide⟩, by decide, by decide, by decide, ⟨by decide, by decide⟩,
    by decide, by decide⟩

/-- C9 (amended): for a header that starts with `h0`, where `h0` is not the
    name of a member of `Object.prototype` when the record lacks the key, the
    label of the row is the record's value for `h0` when that is a non-empty
    string and `Untitled` when it is absent, `undefined` or empty; after the
    `notion.pages.create` call, `addRowToDatabase` prints `Added row :: label`
    on success, and on failure the line `Error adding row "label" ::` with the
    message of the error. -/
theorem addRowToDatabase_label {σ : Type} (N : Notion σ) (databaseId : String)
    (row : Row) (h0 : String) (rest : List String) (w : World σ)
    (hown : Obj.get row h0 = none → h0 ∉ objectPrototypeMembers) :
    rowLabel row (h0 :: rest) =
      (match Obj.get row h0 with
        | some (Cell.str s) => if s = "" then "Untitled" else s
        | some Cell.undefined => "Untitled"
        | none => "Untitled") ∧
    (addRowToDatabase N databaseId row (h0 :: rest) w).2.trace =
      w.trace ++
        [Event.pagesCreate (pageRequest databaseId row (h0 :: rest)),
          (match (N.pagesCreate (pageRequest databaseId row (h0 :: rest)) w.remote).1 with
            | Except.ok _ =>
              Event.consoleLog ["Added row :: " ++ rowLabel row (h0 :: rest)]
            | Except.error e =>
              Event.consoleError
                ["Error adding row \"" ++ rowLabel row (h0 :: rest) ++ "\" :: ", e.message])] := by
  constructor
  · cases hget : Obj.get row h0 with
    | none =>
      have hn := hown hget
      simp [rowLabel, first, Value.toStr, Row.at, hget, hn, Value.or, Value.truthy]
    | some c =>
      cases c with
      | undefined =>
        simp [rowLabel, first, Value.toStr, Row.at, hget, Cell.toValue, Value.or, Value.truthy]
      | str s =>
        by_cases hs : s = ""
        · simp [rowLabel, first, Value.toStr, Row.at, hget, Cell.toValue, Value.or,
            Value.truthy, hs]
        · simp [rowLabel, first, Value.toStr, Row.at, hget, Cell.toValue, Value.or,
            Value.truthy, hs]
  · cases hcall : N.pagesCreate (pageRequest databaseId row (h0 :: rest)) w.remote with
    | mk r s =>
      cases r with
      | ok response =>
        rw [addRowToDatabase_ok N databaseId row (h0 :: rest) w response s hcall]
        simp
      | error e =>
        rw [addRowToDatabase_error N databaseId row (h0 :: rest) w e s hcall]
        simp

/-- Witness of C9: a record without the key `Name`, under the header
    `[Name]`, against a client that rejects the record. -/
theorem addRowToDatabase_label_witness :
    (Obj.get rowEmpty "Name" = none → "Name" ∉ objectPrototypeMembers) ∧
    rowLabel rowEmpty ["Name"] = "Untitled" ∧
    (addRowToDatabase rejectPages "db-1" rowEmpty ["Name"] world0).2.trace =
      [Event.pagesCreate (pageRequest "db-1" rowEmpty ["Name"]),
        Event.consoleError ["Error adding row \"Untitled\" :: ", "rate limited"]] :=
  ⟨fun _ => by decide,
    (addRowToDatabase_label rejectPages "db-1" rowEmpty "Name" [] world0
      (fun _ => by decide)).1,
    by decide⟩

/-- Counterexample to C9 as stated: the record `{}` has no value for the
    primary field `constructor`, yet the label is the source text of the
    function `Object`, inherited from `Object.prototype`, and not
    `Untitled`. -/
theorem addRowToDatabase_label_counterexample :
    Obj.get rowEmpty "constructor" = none ∧
    rowLabel rowEmpty ["constructor"] = "function Object() \x7b [native code] \x7d" ∧
    rowLabel rowEmpty ["constructor"] ≠ "Untitled" ∧
    (addRowToDatabase acceptAll "db-1" rowEmpty ["constructor"] world0).2.trace =
      [Event.pagesCreate (pageRequest "db-1" rowEmpty ["constructor"]),
        Event.consoleLog ["Added row :: function Object() \x7b [native code] \x7d"]] :=
  ⟨by decide, by decide, by decide, by decide⟩

/-- C10: for every header (names may repeat) and every record, the fields of
    the `properties` sent by `addRowToDatabase` and of the `properties` sent
    by `createDynamicDatabase` have the same names; a field is sent under
    `title` exactly when the schema gives it the type `title`, under
    `rich_text` exactly when the schema gives it the type `rich_text`; and
    every name sent is a name of the header. -/
theorem schema_payload_agreement (C : Config) (databaseId : String) (row : Row)
    (headers : List String) (csvFilePath : String) :
    (∀ k, k ∈ Obj.keys (pageRequest databaseId row headers).properties ↔
      k ∈ Obj.keys (databaseRequest C headers csvFilePath).properties) ∧
    (∀ k p, Obj.get (pageRequest databaseId row headers).properties k = some p →
      ∃ sp, Obj.get (databaseRequest C headers csvFilePath).properties k = some sp ∧
        (p.member = "title" ↔ sp.type = "title") ∧
        (p.member = "rich_text" ↔ sp.type = "rich_text") ∧
        (sp.type = "title" ∨ sp.type = "rich_text")) ∧
    (∀ k, k ∈ Obj.keys (pageRequest databaseId row headers).properties → k ∈ headers) := by
  refine ⟨?_, ?_, ?_⟩
  · intro k
    show k ∈ Obj.keys (pageProperties row headers) ↔ k ∈ Obj.keys (schemaProperties headers)
    rw [pageProperties_mem_keys, schemaProperties_mem_keys]
  · intro k p hp
    have hp2 : Obj.get (pageProperties row headers) k = some p := hp
    have hmem : k ∈ headers ∧ k ≠ "__proto__" := by
      rw [← pageProperties_mem_keys row headers k, Obj.mem_keys_iff]
      by_contra hnot
      rw [(Obj.get_eq_none_iff _ _).mpr hnot] at hp2
      exact Option.noConfusion hp2
    obtain ⟨idx, h1, h2⟩ := build_get_pair
      (fun header index =>
        ({ member := if index = 0 then "title" else "rich_text",
           items := [{ type := "text",
                       content := (Row.at row header).or (Value.str "") }] } : PageProperty))
      (fun _ index =>
        ({ type := if index = 0 then "title" else "rich_text",
           member := if index = 0 then "title" else "rich_text" } : SchemaProperty))
      headers 0 [] [] k hmem.1 hmem.2
    have h1b : Obj.get (pageProperties row headers) k = _ := h1
    have h2b : Obj.get (schemaProperties headers) k = _ := h2
    rw [h1b] at hp2
    have hpe := (Option.some.inj hp2).symm
    subst hpe
    refine ⟨_, h2b, ?_⟩
    by_cases h0 : idx = 0 <;> simp [h0]
  · intro k hk
    exact ((pageProperties_mem_keys row headers k).mp hk).1

/-- Witness of C10: a header that repeats `Name`; the one field `Name` is of
    type `rich_text` in the schema and is sent under `rich_text`. -/
theorem schema_payload_agreement_witness :
    Obj.get (pageRequest "db-1" rowA ["Name", "Name"]).properties "Name" =
      some { member := "rich_text", items := [{ type := "text", content := Value.str "A" }] } ∧
    ∃ sp, Obj.get (databaseRequest sampleConfig ["Name", "Name"] "people.csv").properties
        "Name" = some sp ∧
      (("rich_text" : String) = "title" ↔ sp.type = "title") ∧
      (("rich_text" : String) = "rich_text" ↔ sp.type = "rich_text") ∧
      (sp.type = "title" ∨ sp.type = "rich_text") :=
  ⟨by decide,
    (schema_payload_agreement sampleConfig "db-1" rowA ["Name", "Name"] "people.csv").2.1
      "Name"
      { member := "rich_text", items := [{ type := "text", content := Value.str "A" }] }
      (by decide)⟩

/-- C4: once `createDynamicDatabase` has returned the id of the new table,
    whatever the client answers afterwards, `addRowToDatabase` never throws,
    the upload loop runs to its end, and the `notion.pages.create` calls it
    makes are exactly one per record, in the order of the records; so it is
    for the whole `end` listener when there is at least one record. -/
theorem upload_isolation {σ : Type} (C : Config) (N : Notion σ) (headers : List String)
    (rows : List Row) (csvFilePath : String) (w w1 : World σ) (databaseId : String)
    (hcreated : createDynamicDatabase C N (some headers) csvFilePath w =
      (Except.ok databaseId, w1)) :
    (∀ row wk, ∃ v, (addRowToDatabase N databaseId row headers wk).1 = Except.ok v) ∧
    (∃ n, (importFromCsv.uploadRows N databaseId headers rows 0 w1).1 = Except.ok n) ∧
    pageCalls (importFromCsv.uploadRows N databaseId headers rows 0 w1).2.trace =
      pageCalls w1.trace ++ rows.map (fun row => pageRequest databaseId row headers) ∧
    (rows ≠ [] →
      (∃ n, (importFromCsv.onEnd C N headers rows csvFilePath w).1 = Except.ok n) ∧
      pageCalls (importFromCsv.onEnd C N headers rows csvFilePath w).2.trace =
        pageCalls w.trace ++ rows.map (fun row => pageRequest databaseId row headers)) := by
  obtain ⟨h1, h2, _⟩ := uploadRows_spec N databaseId headers rows 0 w1
  refine ⟨?_, ⟨_, h1⟩, h2, ?_⟩
  · intro row wk
    obtain ⟨v, _, hv, _⟩ := addRowToDatabase_total N databaseId row headers wk
    exact ⟨v, hv⟩
  · intro hrows
    have hlen : ¬ rows.length = 0 := by
      intro h0
      exact hrows (List.length_eq_zero.mp h0)
    have hw1 : pageCalls w1.trace = pageCalls w.trace := by
      cases headers with
      | nil =>
        rw [createDynamicDatabase_guard C N (some []) csvFilePath w (Or.inr rfl)] at hcreated
        exact absurd (congrArg Prod.fst hcreated) (by simp)
      | cons h0 rest =>
        cases hcall : N.databasesCreate (databaseRequest C (h0 :: rest) csvFilePath)
            w.remote with
        | mk r s =>
          cases r with
          | ok response =>
            rw [createDynamicDatabase_ok C N (h0 :: rest) csvFilePath w (by simp) response s
              hcall] at hcreated
            have hw := (congrArg Prod.snd hcreated).symm
            simp only at hw
            rw [hw]
            simp [pageCalls_append, pageCalls]
          | error e =>
            rw [createDynamicDatabase_error C N (h0 :: rest) csvFilePath w (by simp) e s
              hcall] at hcreated
            exact absurd (congrArg Prod.fst hcreated) (by simp)
    cases hup : importFromCsv.uploadRows N databaseId headers rows 0 w1 with
    | mk r w2 =>
      rw [hup] at h1 h2
      simp only at h1 h2
      subst h1
      have hend : importFromCsv.onEnd C N headers rows csvFilePath w =
          (Except.ok (0 + rows.length),
            (w2.emit (Event.consoleLog
              ["CSV processing complete! " ++ toString (0 + rows.length) ++
                " rows added to Notion table."])).emit Event.appQuit) := by
        simp [importFromCsv.onEnd, hlen, hcreated, hup]
      rw [hend]
      refine ⟨⟨_, rfl⟩, ?_⟩
      simp only [World.emit, pageCalls_append, h2, hw1]
      simp [pageCalls]

/-- Witness of C4: the two example rows against a client that rejects the
    first record and accepts the second; both calls are made, in order. -/
theorem upload_isolation_witness :
    createDynamicDatabase sampleConfig rejectOdd (some ["Name", "Age"]) "people.csv" world0 =
      (Except.ok "db-1",
        (createDynamicDatabase sampleConfig rejectOdd (some ["Name", "Age"]) "people.csv"
          world0).2) ∧
    (rejectOdd.pagesCreate (pageRequest "db-1" rowA ["Name", "Age"]) 1).1 =
      Except.error ⟨"rate limited"⟩ ∧
    [rowA, rowB] ≠ [] ∧
    (∃ n, (importFromCsv.onEnd sampleConfig rejectOdd ["Name", "Age"] [rowA, rowB] "people.csv" world0).1 =
      Except.ok n) ∧
    pageCalls
        (importFromCsv.onEnd sampleConfig rejectOdd ["Name", "Age"] [rowA, rowB] "people.csv" world0).2.trace =
      pageCalls world0.trace ++
        [rowA, rowB].map (fun row => pageRequest "db-1" row ["Name", "Age"]) :=
  ⟨rfl, rfl, by simp,
    (upload_isolation sampleConfig rejectOdd ["Name", "Age"] [rowA, rowB] "people.csv" world0
      (createDynamicDatabase sampleConfig rejectOdd (some ["Name", "Age"]) "people.csv"
        world0).2 "db-1" rfl).2.2.2 (by simp)⟩

/-- C5, evaluated: the two example rows against a client that rejects every
    record.  Both `notion.pages.create` calls fail, each failure is printed,
    and the listener still ends with `rowCount = 2` and prints
    `2 rows added to Notion table.` -/
theorem rowCount_counts_failed_rows :
    (importFromCsv.onEnd sampleConfig rejectPages ["Name", "Age"] [rowA, rowB] "people.csv" world0).1 =
      Except.ok 2 ∧
    (importFromCsv.onEnd sampleConfig rejectPages ["Name", "Age"] [rowA, rowB] "people.csv" world0).2.trace =
      [Event.databasesCreate (databaseRequest sampleConfig ["Name", "Age"] "people.csv"),
        Event.consoleLog ["Created database :: ID = db-1"],
        Event.pagesCreate (pageRequest "db-1" rowA ["Name", "Age"]),
        Event.consoleError ["Error adding row \"A\" :: ", "rate limited"],
        Event.pagesCreate (pageRequest "db-1" rowB ["Name", "Age"]),
        Event.consoleError ["Error adding row \"B\" :: ", "rate limited"],
        Event.consoleLog ["CSV processing complete! 2 rows added to Notion table."],
        Event.appQuit] :=
  ⟨rfl, by decide⟩

end NotionCsv
